import Mathlib

/-!
Verification of the capture-orchestration engine of JTMP99/python-app.

This file shallowly embeds the parts of the program that the checked
properties talk about:

* the capture session store and `CaptureService.update_capture_status`
  (src/app/services/capture_service.py), together with the derived
  `duration` property of the `StreamCapture` model
  (src/app/models/db_models.py; the stored `duration` column was removed
  by migration 002 and replaced by a read-only property);
* the bot-detection classifier `check_for_bot_detection`, the retrying
  browser setup `setup_selenium`, the pre-flight probe
  `validate_connection` and the encoder monitoring loop of
  `start_capture`, as well as `cleanup`
  (src/app/streaming/capture.py);
* `ProxyService.get_best_proxy` (src/app/services/proxy_service.py) over
  the `proxies` table of migration 001;
* `CaptureMetrics` validation and `CaptureService.add_metric`.

Machine-level conventions: wall-clock instants are naturals (seconds),
Python `datetime` arithmetic is exact, Python floats that only ever hold
exact values in the checked scenarios are rationals, database rows live
in Lean lists, and Python exceptions are an explicit error type.  An
operation that can raise returns its mutated store together with an
`Except` outcome: SQLAlchemy keeps attribute writes made before a raise
on the live session object, and every continuation in this code base
that runs after such a raise issues another commit on the same session,
which flushes them.
-/

namespace CaptureApp

/-- One entry of the `errors` JSON list, `{"time": ..., "error": ...}`, as
appended by `CaptureService.update_capture_status`. -/
structure ErrorEntry where
  time : Nat
  error : String
  deriving Repr, DecidableEq

/-- A row of the `stream_captures` table (model `StreamCapture` in
src/app/models/db_models.py), restricted to the columns the checked
properties mention. -/
structure Capture where
  id : String
  streamUrl : String
  status : String
  createdAt : Nat
  startTime : Option Nat
  endTime : Option Nat
  errors : List ErrorEntry
  videoPath : Option String
  deriving Repr, DecidableEq

/-- The Python exceptions that the embedded operations can raise. -/
inductive PyError where
  | valueError (msg : String)
  | attributeError (msg : String)
  | captureNotFound (msg : String)
  deriving Repr, DecidableEq

/-- `CaptureService.VALID_STATUSES` (src/app/services/capture_service.py,
lines 21-27): note that it does not contain `created`. -/
def VALID_STATUSES : List String :=
  ["initialized", "capturing", "stopping", "completed", "failed"]

/-- Truthiness of an optional string argument (`if error:` in Python). -/
def optStrTruthy : Option String → Bool
  | none => false
  | some s => s ≠ ""

/-- Truthiness of an optional integer argument (`if duration:` in Python):
`None` and `0` are falsy. -/
def optIntTruthy : Option Int → Bool
  | none => false
  | some d => d ≠ 0

/-- `StreamCapture.query.get(capture_id)`. -/
def findCapture (store : List Capture) (cid : String) : Option Capture :=
  store.find? (fun c => c.id = cid)

/-- Committing the mutated session object back into the table. -/
def replaceCapture (store : List Capture) (c : Capture) : List Capture :=
  store.map (fun x => if x.id = c.id then c else x)

/-- The derived `duration` property of `StreamCapture`
(src/app/models/db_models.py, lines 104-113): `end_time - start_time` in
seconds once both are set, `None` before. -/
def Capture.duration (c : Capture) : Option Int :=
  match c.startTime, c.endTime with
  | some s, some e => some ((e : Int) - (s : Int))
  | _, _ => none

deriving instance DecidableEq for Except

/-- Result of a store operation that can raise: the resulting table
contents plus the Python-level outcome. -/
structure UpdateResult where
  store : List Capture
  outcome : Except PyError (Option Capture)
  deriving Repr, DecidableEq

/-- `CaptureService.update_capture_status`
(src/app/services/capture_service.py, lines 73-121).

Control flow of the source, in order: reject a status outside
`VALID_STATUSES` with `ValueError` (raised before the row lookup and not
caught by the `except SQLAlchemyError` clause); return `None` when no row
matches `capture_id`; assign `status`, then `start_time`, `end_time` when
truthy; `capture.duration = duration` when `duration` is truthy, which
hits the read-only `duration` property (its column was dropped by
migration 002) and raises `AttributeError`, skipping the error append and
the commit — the attribute writes already made stay pending on the
session; otherwise append the error entry when `error` is truthy and
commit. -/
def updateCaptureStatus (store : List Capture) (captureId status : String)
    (err : Option String) (startTime endTime : Option Nat) (dur : Option Int)
    (now : Nat) : UpdateResult :=
  if status ∉ VALID_STATUSES then
    { store := store, outcome := .error (.valueError s!"Invalid status: {status}") }
  else
    match findCapture store captureId with
    | none => { store := store, outcome := .ok none }
    | some c0 =>
      let c1 := { c0 with status := status }
      let c2 := match startTime with
        | some t => { c1 with startTime := some t }
        | none => c1
      let c3 := match endTime with
        | some t => { c2 with endTime := some t }
        | none => c2
      if optIntTruthy dur then
        { store := replaceCapture store c3,
          outcome := .error (.attributeError "can\x27t set attribute") }
      else
        let c4 :=
          if optStrTruthy err then
            { c3 with errors := c3.errors ++ [{ time := now, error := err.getD "" }] }
          else c3
        { store := replaceCapture store c4, outcome := .ok (some c4) }

/-- Whether `pat` is a prefix of `l`, on character lists. -/
def listIsPrefix : List Char → List Char → Bool
  | [], _ => true
  | _ :: _, [] => false
  | a :: as, b :: bs => a == b && listIsPrefix as bs

/-- Whether `pat` occurs inside `hay`, on character lists. -/
def listContains (hay pat : List Char) : Bool :=
  match hay with
  | [] => pat.isEmpty
  | _ :: rest => listIsPrefix pat hay || listContains rest pat

/-- Python substring test `needle in haystack`, for the non-empty needles
used by the classifier. -/
def strContains (haystack needle : String) : Bool :=
  listContains haystack.toList needle.toList

/-- ASCII lowercasing of one character; the challenge phrases the
classifier lowercases against are plain ASCII, for which this matches
Python `str.lower`. -/
def asciiLower (c : Char) : Char :=
  if 65 ≤ c.toNat && c.toNat ≤ 90 then Char.ofNat (c.toNat + 32) else c

/-- ASCII lowercasing of a string (`page_source.lower()`). -/
def lowerStr (s : String) : String :=
  String.mk (s.data.map asciiLower)

/-- The phrase list scanned by `check_for_bot_detection` (inline at
src/app/streaming/capture.py line 216, identical to the class constant
`BOT_DETECTION_PHRASES`). -/
def BOT_DETECTION_PHRASES : List String :=
  ["bot detection", "access denied", "are you a human", "please wait", "not human"]

/-- Rendered page state inspected by `check_for_bot_detection`. -/
structure PageState where
  hasRecaptchaIframe : Bool
  title : String
  hasChallengeRunningId : Bool
  hasCfChallengeRunningId : Bool
  pageSource : String
  deriving Repr, DecidableEq

/-- Environment of one classifier invocation: the page reached, plus
whether the driver calls inside the classifier raise (the classifier
catches that itself and reports blocking). -/
structure ClassifierEnv where
  raises : Option String
  page : PageState
  deriving Repr, DecidableEq

/-- A status-update call issued during a run: the requested status and
the error message passed along with it. -/
structure StatusEvent where
  status : String
  error : Option String
  deriving Repr, DecidableEq

/-- State threaded through an orchestration run: the capture table plus
the trace of status-update calls made so far. -/
structure RunSt where
  store : List Capture
  events : List StatusEvent
  deriving Repr, DecidableEq

/-- One `CaptureService.update_capture_status` call inside a run:
applies the update to the table and records the call in the trace. -/
def pushStatus (s : RunSt) (cid status : String) (err : Option String)
    (startTime endTime : Option Nat) (dur : Option Int) (now : Nat) :
    RunSt × Except PyError (Option Capture) :=
  let r := updateCaptureStatus s.store cid status err startTime endTime dur now
  ({ store := r.store, events := s.events ++ [{ status := status, error := err }] },
   r.outcome)

/-- `StreamCapture.check_for_bot_detection` (src/app/streaming/capture.py,
lines 189-226). Each positive branch first marks the session `failed`
with its message, then returns `True`; an exception raised by the checks
themselves is caught and conservatively reported as blocking. -/
def checkForBotDetection (env : ClassifierEnv) (cid : String) (now : Nat)
    (s : RunSt) : RunSt × Bool :=
  match env.raises with
  | some m =>
    ((pushStatus s cid "failed" (some s!"Bot detection check error: {m}")
        none none none now).1, true)
  | none =>
    if env.page.hasRecaptchaIframe then
      ((pushStatus s cid "failed" (some "reCAPTCHA detected")
          none none none now).1, true)
    else if strContains env.page.title "I\x27m Under Attack Mode" then
      ((pushStatus s cid "failed" (some "Cloudflare IUAM detected")
          none none none now).1, true)
    else if env.page.hasChallengeRunningId then
      ((pushStatus s cid "failed"
          (some "Detected element with id=\x27challenge-running\x27")
          none none none now).1, true)
    else if env.page.hasCfChallengeRunningId then
      ((pushStatus s cid "failed"
          (some "Cloudflare challenge detected (cf-challenge-running)")
          none none none now).1, true)
    else
      match BOT_DETECTION_PHRASES.find?
          (fun p => strContains (lowerStr env.page.pageSource) p) with
      | some p =>
        ((pushStatus s cid "failed" (some s!"Bot detection phrase found: {p}")
            none none none now).1, true)
      | none => (s, false)

/-- What one attempt of the `setup_selenium` retry loop runs into: either
driver creation / navigation raises, or a page is reached and the
classifier inspects it. -/
inductive AttemptEnv where
  | excn (msg : String)
  | page (cls : ClassifierEnv)

/-- Outcome of `setup_selenium`: final run state, backoff sleeps
performed (seconds), attempts consumed, returned boolean, and whether
the failure path invoked `cleanup`. -/
structure SetupOut where
  st : RunSt
  backoffs : List Nat
  attemptsUsed : Nat
  success : Bool
  cleanupCalled : Bool

/-- The attempt loop of `setup_selenium` (src/app/streaming/capture.py,
lines 152-181): `for attempt in range(3)` with local
`max_retries = 3`, `retry_delay = 2`. A raised attempt sleeps
`retry_delay * 2 ** attempt` and retries while `attempt < max_retries -
1`, re-raising on the last attempt so the outer handler marks the
session failed and cleans up. On a reached page it calls
`check_for_bot_detection` but discards the returned boolean and breaks
out of the loop, so a classifier-positive page ends the loop exactly
like a clean one. `fuel` stands for `3 - attempt`; the fuel-zero case is
unreachable from `setupSelenium`. -/
def setupLoopAux (atts : Nat → AttemptEnv) (cid : String) (now : Nat) :
    Nat → Nat → RunSt → List Nat → SetupOut
  | 0, attempt, s, backs =>
    { st := s, backoffs := backs, attemptsUsed := attempt,
      success := true, cleanupCalled := false }
  | fuel + 1, attempt, s, backs =>
    match atts attempt with
    | .excn m =>
      if attempt < 3 - 1 then
        setupLoopAux atts cid now fuel (attempt + 1) s (backs ++ [2 * 2 ^ attempt])
      else
        let s := (pushStatus s cid "failed" (some s!"Selenium setup error: {m}")
            none none none now).1
        { st := s, backoffs := backs, attemptsUsed := attempt + 1,
          success := false, cleanupCalled := true }
    | .page cls =>
      let s := (checkForBotDetection cls cid now s).1
      { st := s, backoffs := backs, attemptsUsed := attempt + 1,
        success := true, cleanupCalled := false }

/-- `StreamCapture.setup_selenium` (src/app/streaming/capture.py,
lines 122-187), reduced to the retry loop and its outer handler. -/
def setupSelenium (atts : Nat → AttemptEnv) (cid : String) (now : Nat)
    (s : RunSt) : SetupOut :=
  setupLoopAux atts cid now 3 0 s []

/-- Environment of the pre-flight probe: outcome of the first
`requests.head` call (timeout 10) and of the retry (timeout 30), each
either a status code or a raised request-exception message. -/
structure ProbeEnv where
  first : Except String Nat
  second : Except String Nat
  deriving Repr, DecidableEq

/-- Outcome of `validate_connection`: run state, the timeouts of the
HEAD requests actually issued, and the returned boolean. -/
structure ProbeOut where
  st : RunSt
  timeoutsUsed : List Nat
  ok : Bool
  deriving Repr, DecidableEq

/-- `StreamCapture.validate_connection` (src/app/streaming/capture.py,
lines 228-258): a HEAD request with timeout 10; exactly on status 524
(the Cloudflare timeout, per the source comment) it sleeps 5s and
retries once with timeout 30; any resulting status `>= 400` marks the
session failed with `HTTP Error: <code>` and returns `False`; a raised
request exception marks it failed with `Connection error: <e>`. -/
def validateConnection (env : ProbeEnv) (cid : String) (now : Nat)
    (s : RunSt) : ProbeOut :=
  match env.first with
  | .error e =>
    { st := (pushStatus s cid "failed" (some s!"Connection error: {e}")
        none none none now).1,
      timeoutsUsed := [10], ok := false }
  | .ok code1 =>
    if code1 = 524 then
      match env.second with
      | .error e =>
        { st := (pushStatus s cid "failed" (some s!"Connection error: {e}")
            none none none now).1,
          timeoutsUsed := [10, 30], ok := false }
      | .ok code2 =>
        if code2 ≥ 400 then
          { st := (pushStatus s cid "failed" (some s!"HTTP Error: {code2}")
              none none none now).1,
            timeoutsUsed := [10, 30], ok := false }
        else { st := s, timeoutsUsed := [10, 30], ok := true }
    else if code1 ≥ 400 then
      { st := (pushStatus s cid "failed" (some s!"HTTP Error: {code1}")
          none none none now).1,
        timeoutsUsed := [10], ok := false }
    else { st := s, timeoutsUsed := [10], ok := true }

/-- Whether the ffmpeg process has exited by `elapsed` seconds after
launch; `exitAt = none` models a process that never exits. -/
def processExited (exitAt : Option Nat) (elapsed : Nat) : Bool :=
  match exitAt with
  | some t => t ≤ elapsed
  | none => false

/-- The monitoring loop of `start_capture` (src/app/streaming/capture.py,
lines 283-288): `while time.time() - start_wait < 65`, polling the
process and sleeping one second per iteration (each iteration also
writes the elapsed seconds into the capture metadata). Returns the
elapsed seconds when the loop exits; 66 fuel steps cover the at most 65
iterations. -/
def monitorLoopAux (exitAt : Option Nat) : Nat → Nat → Nat
  | 0, elapsed => elapsed
  | fuel + 1, elapsed =>
    if 65 ≤ elapsed then elapsed
    else if processExited exitAt elapsed then elapsed
    else monitorLoopAux exitAt fuel (elapsed + 1)

/-- The monitoring loop, started at zero elapsed seconds. -/
def monitorLoop (exitAt : Option Nat) : Nat :=
  monitorLoopAux exitAt 66 0

/-- Environment of a full `start_capture` run. -/
structure Env where
  probe : ProbeEnv
  attempts : Nat → AttemptEnv
  exitAt : Option Nat
  stderrOut : String
  artifactExists : Bool
  startT : Nat
  endT : Nat
  now : Nat

/-- Trace of the encoder monitoring phase of `start_capture` (everything
after `subprocess.Popen`). Besides the run state it records which
branches ran: `killed` — whether a `terminate`/`kill` was issued on the
encoder process; `stderrFailIssued` — whether the non-empty-stderr
branch pushed its failed update; `artifactMissingRaised` — whether
`Exception("Video file not created")` was raised;
`completedAttempted` — whether the `completed` status update was
called. -/
structure MonOut where
  st : RunSt
  loopWaited : Nat
  killed : Bool
  processRunningAtEnd : Bool
  cleanupCalled : Bool
  stderrFailIssued : Bool
  artifactMissingRaised : Bool
  completedAttempted : Bool

/-- The encoder monitoring phase of `start_capture`
(src/app/streaming/capture.py, lines 282-311), entered right after
`subprocess.Popen`, with the outer `except` handler of `start_capture`
around it.

After the loop the source polls once more; if the process exited it
reads stdout/stderr and, when stderr is non-empty, marks the session
failed with `FFmpeg error: <stderr>` and carries on. A missing
`video.mp4` raises `Exception("Video file not created")`, caught by the
outer handler, which marks the session failed with a `Capture error:`
message and runs `cleanup`. Otherwise the source calls
`update_capture_status(id, "completed", end_time=..., duration=int(...))`;
a truthy `duration` makes that call assign to the read-only `duration`
property and raise `AttributeError` (classic CPython message
`can\x27t set attribute`), which the same outer handler turns into a
failed status. The source contains no `terminate`/`kill` call on this
path — those exist only in `stop_capture`, which this method never
invokes — so `killed` records `false` and a process still running when
monitoring stops stays running. -/
def monitorPhase (env : Env) (cid : String) (s1 : RunSt) : MonOut :=
  let waited := monitorLoop env.exitAt
  let exited := processExited env.exitAt waited
  let se := env.stderrOut
  let stderrBranch := exited && (se != "")
  let s2 :=
    if stderrBranch then
      (pushStatus s1 cid "failed" (some s!"FFmpeg error: {se}")
          none none none env.now).1
    else s1
  if ¬ env.artifactExists then
    let s3 := (pushStatus s2 cid "failed"
        (some "Capture error: Video file not created")
        none none none env.now).1
    { st := s3, loopWaited := waited, killed := false,
      processRunningAtEnd := !exited, cleanupCalled := true,
      stderrFailIssued := stderrBranch, artifactMissingRaised := true,
      completedAttempted := false }
  else
    let dur : Int := (env.endT : Int) - (env.startT : Int)
    let r := pushStatus s2 cid "completed" none none (some env.endT)
        (some dur) env.now
    match r.2 with
    | .error _ =>
      let s3 := (pushStatus r.1 cid "failed"
          (some "Capture error: can\x27t set attribute")
          none none none env.now).1
      { st := s3, loopWaited := waited, killed := false,
        processRunningAtEnd := !exited, cleanupCalled := true,
        stderrFailIssued := stderrBranch, artifactMissingRaised := false,
        completedAttempted := true }
    | .ok _ =>
      { st := r.1, loopWaited := waited, killed := false,
        processRunningAtEnd := !exited, cleanupCalled := false,
        stderrFailIssued := stderrBranch, artifactMissingRaised := false,
        completedAttempted := true }

/-- Trace of a full `start_capture` run. `seleniumStarted` records that
the browser attempt loop ran at all, `ffmpegStarted` that
`subprocess.Popen` was reached, `killed` that the run issued a
`terminate`/`kill` on the encoder process. -/
structure CapRun where
  st : RunSt
  timeoutsUsed : List Nat
  backoffs : List Nat
  attemptsUsed : Nat
  seleniumStarted : Bool
  ffmpegStarted : Bool
  loopWaited : Nat
  killed : Bool
  processRunningAtEnd : Bool
  cleanupCalled : Bool

/-- `StreamCapture.start_capture` (src/app/streaming/capture.py, lines
260-311), composed in source order from `validate_connection` (failure
returns before any browser or encoder resource is created),
`setup_selenium`, the `capturing` transition with `start_time`, and the
encoder monitoring phase. -/
def startCapture (env : Env) (store0 : List Capture) (cid : String) : CapRun :=
  let s0 : RunSt := { store := store0, events := [] }
  let v := validateConnection env.probe cid env.now s0
  if ¬ v.ok then
    let s := (pushStatus v.st cid "failed" (some "Connection validation failed")
        none none none env.now).1
    { st := s, timeoutsUsed := v.timeoutsUsed, backoffs := [], attemptsUsed := 0,
      seleniumStarted := false, ffmpegStarted := false, loopWaited := 0,
      killed := false, processRunningAtEnd := false, cleanupCalled := false }
  else
    let su := setupSelenium env.attempts cid env.now v.st
    if ¬ su.success then
      let s := (pushStatus su.st cid "failed" (some "Selenium setup failed")
          none none none env.now).1
      { st := s, timeoutsUsed := v.timeoutsUsed, backoffs := su.backoffs,
        attemptsUsed := su.attemptsUsed, seleniumStarted := true,
        ffmpegStarted := false, loopWaited := 0, killed := false,
        processRunningAtEnd := false, cleanupCalled := true }
    else
      let s1 := (pushStatus su.st cid "capturing" none (some env.startT)
          none none env.now).1
      let m := monitorPhase env cid s1
      { st := m.st, timeoutsUsed := v.timeoutsUsed, backoffs := su.backoffs,
        attemptsUsed := su.attemptsUsed, seleniumStarted := true,
        ffmpegStarted := true, loopWaited := m.loopWaited, killed := m.killed,
        processRunningAtEnd := m.processRunningAtEnd,
        cleanupCalled := m.cleanupCalled }

/-- A row of the `proxies` table. The ORM class `Proxy` that
`ProxyService` imports is not defined under `app/models`; its columns
are those of the `proxies` table created by migration 001
(src/app/Migrations/Versions/001_initial.py, lines 40-53), restricted to
the ones `get_best_proxy` reads. `lastUsed = none` is a NULL
`last_used`. -/
structure Proxy where
  id : Nat
  isActive : Bool
  lastUsed : Option Nat
  successCount : Nat
  failCount : Nat
  deriving Repr, DecidableEq

/-- The ordering key of `get_best_proxy`:
`success_count / (success_count + fail_count + 1)`, read as exact
division. -/
def proxyScore (p : Proxy) : ℚ :=
  (p.successCount : ℚ) / ((p.successCount : ℚ) + (p.failCount : ℚ) + 1)

/-- The SQL filter of `get_best_proxy`: `is_active = TRUE` and
`last_used <= utcnow() - 30 seconds`. Under SQL three-valued logic the
comparison is unknown for a NULL `last_used`, so rows that were never
used do not pass the filter. -/
def proxyEligible (now : Nat) (p : Proxy) : Bool :=
  p.isActive &&
    match p.lastUsed with
    | some l => decide (l + 30 ≤ now)
    | none => false

/-- `ORDER BY key DESC` followed by `.first()`: the first row of maximal
key in table order. -/
def firstMax : List Proxy → Option Proxy
  | [] => none
  | p :: ps =>
    match firstMax ps with
    | none => some p
    | some q => if proxyScore q > proxyScore p then some q else some p

/-- `ProxyService.get_best_proxy` (src/app/services/proxy_service.py,
lines 9-18). -/
def getBestProxy (pool : List Proxy) (now : Nat) : Option Proxy :=
  firstMax (pool.filter (proxyEligible now))

/-- State of the per-session resources that `cleanup` releases: whether
`self.driver` is set, the value of `self.user_data_dir`, and the
`temp_dir` attribute — which `__init__` never creates, so `tempDefined`
models `hasattr(self, "temp_dir")`. -/
structure CState where
  driver : Bool
  userDataDir : Option String
  tempDefined : Bool
  tempDir : Option String
  deriving Repr, DecidableEq

/-- External conditions a `cleanup` call runs under: whether
`driver.quit()` raises, which directories exist on disk, and whether
`shutil.rmtree` raises on a given directory. -/
structure CleanupWorld where
  quitRaises : Bool
  dirExists : String → Bool
  rmtreeRaises : String → Bool

/-- `self.driver.quit()`. -/
def quitDriver (w : CleanupWorld) : Except String Unit :=
  if w.quitRaises then .error "quit failed" else .ok ()

/-- `shutil.rmtree(d)`. -/
def rmtree (w : CleanupWorld) (d : String) : Except String Unit :=
  if w.rmtreeRaises d then .error "rmtree failed" else .ok ()

/-- Python `try: act except Exception: log` — the exception is swallowed
either way. -/
def swallow (act : Except String Unit) : Unit :=
  match act with
  | .ok _ => ()
  | .error _ => ()

/-- `StreamCapture.cleanup` (src/app/streaming/capture.py, lines
348-371). Each risky operation is wrapped in its own `try/except` in the
source, mirrored here by `swallow`; an exception the source failed to
catch would surface as an `.error` outcome. Note the source clears
`user_data_dir` and `temp_dir` inside the `if` bodies, so a path that is
set but does not exist on disk stays set — and is skipped again by any
later call. Paths produced by `tempfile.mkdtemp` are non-empty, so a set
path is truthy. -/
def cleanup (w : CleanupWorld) (s : CState) : Except String CState := do
  let s1 :=
    if s.driver then
      let _ := swallow (quitDriver w)
      { s with driver := false }
    else s
  let s2 :=
    match s1.userDataDir with
    | some d =>
      if w.dirExists d then
        let _ := swallow (rmtree w d)
        { s1 with userDataDir := none }
      else s1
    | none => s1
  let s3 :=
    if s2.tempDefined then
      match s2.tempDir with
      | some d =>
        if w.dirExists d then
          let _ := swallow (rmtree w d)
          { s2 with tempDir := none }
        else s2
      | none => s2
    else s2
  pure s3

/-- The metric fields passed to `CaptureService.add_metric`; Python
floats carrying exact measurement values are modelled as rationals, a
missing value as `none`. -/
structure MetricVals where
  cpuUsage : Option ℚ
  memoryUsage : Option ℚ
  frameRate : Option ℚ
  deriving Repr, DecidableEq

/-- A row of the `capture_metrics` table (model `CaptureMetrics`,
src/app/models/db_models.py). -/
structure Metric where
  captureId : String
  timestamp : Nat
  cpuUsage : Option ℚ
  memoryUsage : Option ℚ
  frameRate : Option ℚ
  deriving Repr, DecidableEq

/-- First bound of `CaptureMetrics.validate`: cpu in [0, 100] when
present. -/
def cpuOk (c : Option ℚ) : Bool :=
  match c with
  | some x => decide (0 ≤ x ∧ x ≤ 100)
  | none => true

/-- Second bound of `CaptureMetrics.validate`: memory non-negative when
present. -/
def memOk (m : Option ℚ) : Bool :=
  match m with
  | some x => decide (0 ≤ x)
  | none => true

/-- Third bound of `CaptureMetrics.validate`: frame rate non-negative
when present. -/
def frOk (f : Option ℚ) : Bool :=
  match f with
  | some x => decide (0 ≤ x)
  | none => true

/-- All three bounds of `CaptureMetrics.validate`, on a stored row. -/
def metricOk (m : Metric) : Bool :=
  cpuOk m.cpuUsage && memOk m.memoryUsage && frOk m.frameRate

/-- `CaptureMetrics.__init__` (src/app/models/db_models.py, lines
137-149): field assignment followed by `validate()`, which raises
`ValueError` at the first violated bound. -/
def mkCaptureMetrics (cid : String) (v : MetricVals) (now : Nat) :
    Except PyError Metric :=
  if ¬ cpuOk v.cpuUsage then
    .error (.valueError "CPU usage must be between 0 and 100")
  else if ¬ memOk v.memoryUsage then
    .error (.valueError "Memory usage cannot be negative")
  else if ¬ frOk v.frameRate then
    .error (.valueError "Frame rate cannot be negative")
  else
    .ok { captureId := cid, timestamp := now, cpuUsage := v.cpuUsage,
          memoryUsage := v.memoryUsage, frameRate := v.frameRate }

/-- Result of `add_metric`: the metric table plus the Python outcome. -/
structure AddResult where
  metrics : List Metric
  outcome : Except PyError Bool
  deriving Repr, DecidableEq

/-- `CaptureService.add_metric` (src/app/services/capture_service.py,
lines 213-253): looks the capture up, raising `CaptureNotFoundError`
when absent; constructs the `CaptureMetrics` row, whose constructor
validates and may raise `ValueError` — which the `except
SQLAlchemyError` clause does not catch, so it propagates before
`db.session.add` runs; only then adds and commits the row. -/
def addMetric (captures : List Capture) (metrics : List Metric)
    (cid : String) (v : MetricVals) (now : Nat) : AddResult :=
  match findCapture captures cid with
  | none =>
    { metrics := metrics,
      outcome := .error (.captureNotFound s!"Capture {cid} not found") }
  | some _ =>
    match mkCaptureMetrics cid v now with
    | .error e => { metrics := metrics, outcome := .error e }
    | .ok m => { metrics := metrics ++ [m], outcome := .ok true }

/-! Concrete fixtures used by the scenario evaluations below. -/

/-- A freshly created session row, as `CaptureService.create_capture`
builds it (status `initialized`). -/
def sessionA : Capture :=
  { id := "a", streamUrl := "u", status := "initialized", createdAt := 0,
    startTime := none, endTime := none, errors := [], videoPath := none }

/-- The same session in the terminal `completed` state. -/
def sessionDone : Capture :=
  { sessionA with status := "completed" }

/-- A rendered page with no blocking signal. -/
def cleanPage : PageState :=
  { hasRecaptchaIframe := false, title := "stream", hasChallengeRunningId := false,
    hasCfChallengeRunningId := false, pageSource := "all good" }

/-- A rendered page whose body contains a challenge phrase. -/
def blockedPage : PageState :=
  { cleanPage with pageSource := "Now running Bot Detection step" }

/-- Classifier-positive pages on attempts 1 and 2 (indices 0 and 1),
a clean page on attempt 3. -/
def attsBlockedTwice : Nat → AttemptEnv := fun n =>
  if n ≤ 1 then .page { raises := none, page := blockedPage }
  else .page { raises := none, page := cleanPage }

/-- Clean pages on every attempt. -/
def attsAllClean : Nat → AttemptEnv := fun _ =>
  .page { raises := none, page := cleanPage }

/-- Blocked-twice scenario: probe fine, encoder exits at 60s with empty
stderr and the artifact on disk; capture runs from t=100 to t=160. -/
def envBlockedTwice : Env :=
  { probe := { first := .ok 200, second := .ok 200 },
    attempts := attsBlockedTwice, exitAt := some 60, stderrOut := "",
    artifactExists := true, startT := 100, endT := 160, now := 5 }

/-- Fully clean run: encoder exits at 60s, artifact present, stderr
empty. -/
def envCleanRun : Env :=
  { envBlockedTwice with attempts := attsAllClean }

/-- Encoder never exits and no artifact appears. -/
def envHungEncoder : Env :=
  { envCleanRun with exitAt := none, artifactExists := false }

/-- Clean run except that ffmpeg wrote to stderr; artifact present. -/
def envStderrRun : Env :=
  { envCleanRun with stderrOut := "frame dropped" }

/-- Clean run except that the pre-flight probe answers HTTP 523. -/
def envProbe523 : Env :=
  { envCleanRun with probe := { first := .ok 523, second := .ok 200 } }

/-- An active proxy that was never used: one success, no failures. -/
def proxyFresh : Proxy :=
  { id := 1, isActive := true, lastUsed := none, successCount := 1, failCount := 0 }

/-- An active proxy last used at t=0 with five failures and no
successes. -/
def proxyStale : Proxy :=
  { id := 2, isActive := true, lastUsed := some 0, successCount := 0, failCount := 5 }

/-! Helper lemmas. -/

/-- The monitoring loop never runs past the 65-second cap. -/
lemma monitorLoopAux_le (x : Option Nat) :
    ∀ fuel e, e ≤ 65 → monitorLoopAux x fuel e ≤ 65 := by
  intro fuel
  induction fuel with
  | zero => intro e he; simpa [monitorLoopAux] using he
  | succ n ih =>
    intro e he
    unfold monitorLoopAux
    by_cases h65 : 65 ≤ e
    · simpa [h65] using he
    · by_cases hex : processExited x e = true
      · simpa [h65, hex] using he
      · simp only [h65, hex, if_false, Bool.false_eq_true, if_neg, reduceIte]
        exact ih (e + 1) (by omega)

/-- The monitoring loop, started at zero, is bounded by 65 seconds. -/
lemma monitorLoop_le (x : Option Nat) : monitorLoop x ≤ 65 :=
  monitorLoopAux_le x 66 0 (by omega)

/-- The row written by a successful `update_capture_status` call that
passes no `duration`, in terms of the row that was found. -/
def appliedUpdate (c : Capture) (status : String) (err : Option String)
    (st et : Option Nat) (now : Nat) : Capture :=
  let c1 := { c with status := status }
  let c2 := match st with
    | some t => { c1 with startTime := some t }
    | none => c1
  let c3 := match et with
    | some t => { c2 with endTime := some t }
    | none => c2
  if optStrTruthy err then
    { c3 with errors := c3.errors ++ [{ time := now, error := err.getD "" }] }
  else c3

lemma appliedUpdate_id (c : Capture) (status : String) (err : Option String)
    (st et : Option Nat) (now : Nat) :
    (appliedUpdate c status err st et now).id = c.id := by
  unfold appliedUpdate
  cases st <;> cases et <;> by_cases h : optStrTruthy err <;> simp [h]

/-- Characterization of `update_capture_status` on a found row, a valid
status and no `duration`: it unconditionally writes the requested
status. -/
lemma updateCaptureStatus_found (store : List Capture) (cid status : String)
    (err : Option String) (st et : Option Nat) (now : Nat) (c : Capture)
    (hv : status ∈ VALID_STATUSES) (hc : findCapture store cid = some c) :
    updateCaptureStatus store cid status err st et none now =
      { store := replaceCapture store (appliedUpdate c status err st et now),
        outcome := .ok (some (appliedUpdate c status err st et now)) } := by
  unfold updateCaptureStatus appliedUpdate
  rw [if_neg (by simp [hv]), hc]
  simp only [optIntTruthy]
  rfl

/-- After committing a row whose id is `cid`, the lookup finds exactly
that row. -/
lemma findCapture_replaceCapture (store : List Capture) (cid : String)
    (c : Capture) (hid : c.id = cid) (h : (findCapture store cid).isSome) :
    findCapture (replaceCapture store c) cid = some c := by
  induction store with
  | nil => simp [findCapture] at h
  | cons x xs ih =>
    by_cases hx : x.id = cid
    · have hxc : x.id = c.id := by rw [hx, hid]
      simp [findCapture, replaceCapture, hxc, hid]
    · have hxc : ¬ x.id = c.id := by rw [hid]; exact hx
      have h' : (findCapture xs cid).isSome := by
        simpa [findCapture, List.find?_cons, hx] using h
      have := ih h'
      simpa [findCapture, replaceCapture, hxc, hx] using this

/-- `firstMax` answers `none` only on the empty list. -/
lemma firstMax_eq_none : ∀ {l : List Proxy}, firstMax l = none → l = [] := by
  intro l h
  cases l with
  | nil => rfl
  | cons a as =>
    unfold firstMax at h
    cases hfm : firstMax as with
    | none => rw [hfm] at h; simp at h
    | some q =>
      rw [hfm] at h
      by_cases hlt : proxyScore q > proxyScore a <;> simp [hlt] at h

/-- `firstMax` returns an element of its input list. -/
lemma firstMax_mem : ∀ {l : List Proxy} {p : Proxy},
    firstMax l = some p → p ∈ l := by
  intro l
  induction l with
  | nil => intro p h; simp [firstMax] at h
  | cons a as ih =>
    intro p h
    unfold firstMax at h
    cases hfm : firstMax as with
    | none =>
      rw [hfm] at h
      simp at h
      simp [h]
    | some q =>
      rw [hfm] at h
      by_cases hlt : proxyScore q > proxyScore a
      · simp [hlt] at h
        exact List.mem_cons_of_mem a (ih (h ▸ hfm))
      · simp [hlt] at h
        simp [← h]

/-- `firstMax` returns an element of maximal score. -/
lemma firstMax_le : ∀ {l : List Proxy} {p : Proxy},
    firstMax l = some p → ∀ q ∈ l, proxyScore q ≤ proxyScore p := by
  intro l
  induction l with
  | nil => intro p h; simp [firstMax] at h
  | cons a as ih =>
    intro p h q hq
    unfold firstMax at h
    cases hfm : firstMax as with
    | none =>
      rw [hfm] at h
      simp at h
      have : as = [] := firstMax_eq_none hfm
      subst this
      rcases List.mem_singleton.mp hq with rfl
      simp [h]
    | some r =>
      rw [hfm] at h
      rcases List.mem_cons.mp hq with rfl | hq'
      · by_cases hlt : proxyScore r > proxyScore q
        · simp [hlt] at h
          exact h ▸ le_of_lt hlt
        · simp [hlt] at h
          exact h ▸ le_refl _
      · have hr := ih hfm q hq'
        by_cases hlt : proxyScore r > proxyScore a
        · simp [hlt] at h
          exact h ▸ hr
        · simp [hlt] at h
          exact h ▸ le_trans hr (not_lt.mp hlt)

/-- `firstMax` answers on any non-empty list. -/
lemma firstMax_isSome {l : List Proxy} (h : l ≠ []) :
    (firstMax l).isSome := by
  cases l with
  | nil => exact absurd rfl h
  | cons a as =>
    unfold firstMax
    cases firstMax as with
    | none => rfl
    | some q => by_cases hlt : proxyScore q > proxyScore a <;> simp [hlt]

lemma appliedUpdate_status (c : Capture) (status : String) (err : Option String)
    (st et : Option Nat) (now : Nat) :
    (appliedUpdate c status err st et now).status = status := by
  unfold appliedUpdate
  cases st <;> cases et <;> by_cases h : optStrTruthy err <;> simp [h]

/-- A successful append-only failed update with a non-empty message. -/
lemma appliedUpdate_err (c : Capture) (status msg : String) (now : Nat)
    (hm : msg ≠ "") :
    appliedUpdate c status (some msg) none none now
      = { c with status := status,
                 errors := c.errors ++ [{ time := now, error := msg }] } := by
  simp [appliedUpdate, optStrTruthy, hm]

/-- The row a lookup finds carries the id it was looked up by. -/
lemma findCapture_id {store : List Capture} {cid : String} {c : Capture}
    (h : findCapture store cid = some c) : c.id = cid := by
  have := List.find?_some h
  simpa using this

/-! Run fixtures: full `start_capture` runs on the scenario
environments, against a store holding the freshly created session. -/

/-- Run of the blocked-twice scenario. -/
def runBlockedTwice : CapRun := startCapture envBlockedTwice [sessionA] "a"

/-- Run of the clean scenario. -/
def runClean : CapRun := startCapture envCleanRun [sessionA] "a"

/-- Run of the hung-encoder scenario. -/
def runHung : CapRun := startCapture envHungEncoder [sessionA] "a"

/-- Run of the stderr scenario. -/
def runStderr : CapRun := startCapture envStderrRun [sessionA] "a"

/-- Run of the HTTP 523 probe scenario. -/
def run523 : CapRun := startCapture envProbe523 [sessionA] "a"

/-! Claim theorems. -/

/-- C1, counterexample: `update_capture_status` moves a session out of
the terminal `completed` state. Requesting `capturing` on a `completed`
session succeeds and writes the regressed status instead of being
rejected with an error, refuting the claimed monotonic state machine. -/
theorem C1_counterexample :
    (updateCaptureStatus [sessionDone] "a" "capturing" none none none none 7).outcome
        = .ok (some { sessionDone with status := "capturing" }) ∧
    (updateCaptureStatus [sessionDone] "a" "capturing" none none none none 7).store
        = [{ sessionDone with status := "capturing" }] := by
  decide

/-- C1, amended: `update_capture_status` validates only membership of the
requested status in the valid-status set. Any valid status is applied to
a found session unconditionally — regardless of its current status, so
terminal states can be left and the order can regress — while a status
outside the set is rejected with `ValueError` and the store is left
unchanged. (Stated for calls without a `duration` argument, whose
separate failure is the subject of C3.) -/
theorem C1_amended (store : List Capture) (cid status : String)
    (err : Option String) (st et : Option Nat) (now : Nat) :
    (status ∈ VALID_STATUSES → ∀ c, findCapture store cid = some c →
      (updateCaptureStatus store cid status err st et none now).outcome
        = .ok (some (appliedUpdate c status err st et now)) ∧
      (appliedUpdate c status err st et now).status = status) ∧
    (status ∉ VALID_STATUSES →
      (updateCaptureStatus store cid status err st et none now).outcome
        = .error (.valueError s!"Invalid status: {status}") ∧
      (updateCaptureStatus store cid status err st et none now).store = store) := by
  constructor
  · intro hv c hc
    rw [updateCaptureStatus_found store cid status err st et now c hv hc]
    exact ⟨rfl, appliedUpdate_status c status err st et now⟩
  · intro hnv
    unfold updateCaptureStatus
    rw [if_pos (by simpa using hnv)]
    exact ⟨rfl, rfl⟩

/-- C1, witness: the amended characterization applied to the concrete
regressed transition `completed` to `capturing`. -/
theorem C1_amended_witness :
    (updateCaptureStatus [sessionDone] "a" "capturing" none none none none 7).outcome
        = .ok (some (appliedUpdate sessionDone "capturing" none none none 7)) ∧
    (appliedUpdate sessionDone "capturing" none none none 7).status = "capturing" :=
  (C1_amended [sessionDone] "a" "capturing" none none none 7).1 (by decide)
    sessionDone (by decide)

/-- C2, code evaluation at the claimed scenario: with the classifier
positive on attempts 1 and 2 and a clean page on attempt 3, the run
consumes a single attempt, performs no backoff sleep, records exactly
one block-detection error (not two), and still pushes `capturing` — the
setup loop discards the return value of `check_for_bot_detection`, so a
classifier-positive attempt is never retried. (The run then ends
`failed` because of the `duration` assignment bug, C3.) -/
theorem C2_eval :
    runBlockedTwice.attemptsUsed = 1 ∧
    runBlockedTwice.backoffs = ([] : List Nat) ∧
    runBlockedTwice.st.events =
      [{ status := "failed",
         error := some "Bot detection phrase found: bot detection" },
       { status := "capturing", error := none },
       { status := "completed", error := none },
       { status := "failed", error := some "Capture error: can\x27t set attribute" }] ∧
    (findCapture runBlockedTwice.st.store "a").map (fun c => c.errors.map (fun e => e.error))
      = some ["Bot detection phrase found: bot detection",
              "Capture error: can\x27t set attribute"] := by
  decide

/-- C3, code evaluation at the claimed scenario: the encoder exits at
60s with the artifact present and non-empty stderr absent, yet the
session ends `failed`, not `completed`: the `completed` update passes
`duration=60`, which assigns to the read-only `duration` property (its
column was removed by migration 002) and raises `AttributeError`, and
the handler then marks the session failed with a `Capture error`. -/
theorem C3_eval :
    envCleanRun.exitAt = some 60 ∧
    envCleanRun.stderrOut = "" ∧
    envCleanRun.artifactExists = true ∧
    envCleanRun.endT - envCleanRun.startT = 60 ∧
    runClean.st.events =
      [{ status := "capturing", error := none },
       { status := "completed", error := none },
       { status := "failed", error := some "Capture error: can\x27t set attribute" }] ∧
    (findCapture runClean.st.store "a").map (fun c => c.status) = some "failed" := by
  decide

/-- C10, counterexample: calling `update_capture_status` with an unknown
id and a status outside the valid set does not return `None` — the
`ValueError` is raised before the lookup — refuting the claim as a
statement about every unknown-id call (the store is indeed left
unchanged). -/
theorem C10_counterexample :
    findCapture [sessionA] "missing" = none ∧
    (updateCaptureStatus [sessionA] "missing" "bogus" none none none none 7).outcome
      = .error (.valueError "Invalid status: bogus") ∧
    ¬ ((updateCaptureStatus [sessionA] "missing" "bogus" none none none none 7).outcome
      = .ok none) ∧
    (updateCaptureStatus [sessionA] "missing" "bogus" none none none none 7).store
      = [sessionA] := by
  decide

/-- C10, amended: when the id matches no stored capture,
`update_capture_status` with a valid status returns `None` and leaves
every stored record unchanged; with an invalid status it raises
`ValueError` before the lookup, also leaving the store unchanged. -/
theorem C10_amended (store : List Capture) (cid status : String)
    (err : Option String) (st et : Option Nat) (dur : Option Int) (now : Nat)
    (hnone : findCapture store cid = none) :
    (status ∈ VALID_STATUSES →
      updateCaptureStatus store cid status err st et dur now
        = { store := store, outcome := .ok none }) ∧
    (status ∉ VALID_STATUSES →
      updateCaptureStatus store cid status err st et dur now
        = { store := store, outcome := .error (.valueError s!"Invalid status: {status}") }) := by
  constructor
  · intro hv
    unfold updateCaptureStatus
    rw [if_neg (by simpa using hv), hnone]
  · intro hnv
    unfold updateCaptureStatus
    rw [if_pos (by simpa using hnv)]

/-- C10, witness: the amended statement applied to an unknown id with
the valid status `failed`. -/
theorem C10_amended_witness :
    updateCaptureStatus [sessionA] "missing" "failed" none none none none 7
      = { store := [sessionA], outcome := .ok none } :=
  (C10_amended [sessionA] "missing" "failed" none none none none 7 (by decide)).1
    (by decide)

/-- C4, counterexample: the encoder exits with the artifact present, yet
non-empty stderr is not recorded as a non-fatal warning — the run pushes
a `failed` status update with an `FFmpeg error` entry, and the session
ends `failed`. -/
theorem C4_counterexample :
    envStderrRun.artifactExists = true ∧
    ({ status := "failed", error := some "FFmpeg error: frame dropped" } :
        StatusEvent) ∈ runStderr.st.events ∧
    (findCapture runStderr.st.store "a").map (fun c => c.status) = some "failed" := by
  decide

/-- C4, amended: in the monitoring phase, non-empty stderr from an
exited encoder triggers a `failed` status update with an `FFmpeg error`
entry (rather than only a log warning), execution continues past it —
when the artifact exists the `completed` update is still attempted — and
the missing-artifact exception is raised exactly when the artifact file
is absent. -/
theorem C4_amended (env : Env) (cid : String) (s : RunSt) :
    (monitorPhase env cid s).stderrFailIssued
      = (processExited env.exitAt (monitorLoop env.exitAt) && (env.stderrOut != "")) ∧
    (monitorPhase env cid s).artifactMissingRaised = !env.artifactExists ∧
    (env.artifactExists = true →
      (monitorPhase env cid s).completedAttempted = true) := by
  simp only [monitorPhase]
  split
  next h =>
    have ha : env.artifactExists = false := by
      revert h; cases env.artifactExists <;> simp
    refine ⟨rfl, by simp [ha], ?_⟩
    intro hta
    rw [hta] at ha
    exact absurd ha (by simp)
  next h =>
    have ha : env.artifactExists = true := by
      revert h; cases env.artifactExists <;> simp
    split
    · exact ⟨rfl, by simp [ha], fun _ => rfl⟩
    · exact ⟨rfl, by simp [ha], fun _ => rfl⟩

/-- C4, witness: the amended statement evaluated on the stderr scenario,
where the artifact exists and the `completed` update is still
attempted. -/
theorem C4_amended_witness :
    (monitorPhase envStderrRun "a" { store := [sessionA], events := [] }).completedAttempted
      = true :=
  (C4_amended envStderrRun "a" { store := [sessionA], events := [] }).2.2 (by decide)

/-- C5, counterexample: with an encoder that never exits and no artifact,
the monitoring wait is indeed cut off at 65 seconds and the session ends
`failed`, but the Recorder does not force-kill the subprocess — no
`terminate`/`kill` is issued on this path and the process is still
running when the run ends — refuting the claimed forced kill. -/
theorem C5_counterexample :
    envHungEncoder.exitAt = none ∧
    runHung.loopWaited = 65 ∧
    runHung.killed = false ∧
    runHung.processRunningAtEnd = true ∧
    (findCapture runHung.st.store "a").map (fun c => c.status) = some "failed" := by
  decide

/-- C5, amended: the monitoring wait is bounded by 65 seconds (the 60s
`-t` limit plus 5s grace) even if the encoder never exits, but no kill
is ever issued: a never-exiting process is still running when
monitoring stops, and the session then fails — when the artifact is
absent — through the `Capture error: Video file not created` handler,
which also runs cleanup of the browser and profile resources. -/
theorem C5_amended (env : Env) (cid : String) (s : RunSt) :
    (monitorPhase env cid s).loopWaited ≤ 65 ∧
    (monitorPhase env cid s).killed = false ∧
    (env.exitAt = none →
      (monitorPhase env cid s).processRunningAtEnd = true ∧
      (env.artifactExists = false →
        (monitorPhase env cid s).st.events.getLast?
          = some { status := "failed",
                   error := some "Capture error: Video file not created" } ∧
        (monitorPhase env cid s).cleanupCalled = true)) := by
  simp only [monitorPhase]
  split
  next h =>
    have ha : env.artifactExists = false := by
      revert h; cases env.artifactExists <;> simp
    refine ⟨monitorLoop_le env.exitAt, rfl, ?_⟩
    intro hnone
    refine ⟨by simp [processExited, hnone], ?_⟩
    intro _
    refine ⟨?_, rfl⟩
    simp only [pushStatus, processExited, hnone]
    exact List.getLast?_concat _
  next h =>
    have ha : env.artifactExists = true := by
      revert h; cases env.artifactExists <;> simp
    split
    · refine ⟨monitorLoop_le env.exitAt, rfl, ?_⟩
      intro hnone
      refine ⟨by simp [processExited, hnone], ?_⟩
      intro hfalse
      rw [hfalse] at ha
      exact absurd ha (by simp)
    · refine ⟨monitorLoop_le env.exitAt, rfl, ?_⟩
      intro hnone
      refine ⟨by simp [processExited, hnone], ?_⟩
      intro hfalse
      rw [hfalse] at ha
      exact absurd ha (by simp)

/-- C5, witness: the bound and non-kill facts of the amended statement
evaluated on the hung-encoder scenario. -/
theorem C5_amended_witness :
    (monitorPhase envHungEncoder "a" { store := [sessionA], events := [] }).processRunningAtEnd
        = true ∧
    (monitorPhase envHungEncoder "a" { store := [sessionA], events := [] }).st.events.getLast?
        = some { status := "failed",
                 error := some "Capture error: Video file not created" } := by
  have h := (C5_amended envHungEncoder "a" { store := [sessionA], events := [] }).2.2
      (by decide)
  exact ⟨h.1, (h.2 (by decide)).1⟩

/-- C7, counterexample: `get_best_proxy` does not return a proxy of
maximal success score among the active proxies outside the cooldown
window. A never-used active proxy (NULL `last_used`, score 1/2) is
dropped by the SQL cooldown comparison, so the query returns the stale
proxy of score 0 instead. -/
theorem C7_counterexample :
    getBestProxy [proxyFresh, proxyStale] 100 = some proxyStale ∧
    proxyFresh.isActive = true ∧
    proxyFresh.lastUsed = none ∧
    proxyScore proxyStale < proxyScore proxyFresh := by
  refine ⟨by decide, by decide, by decide, ?_⟩
  norm_num [proxyScore, proxyStale, proxyFresh]

/-- C7, amended: `get_best_proxy` never returns an inactive proxy or one
used within the 30-second cooldown; proxies never used at all
(NULL `last_used`) are likewise excluded by the SQL comparison; among
the active proxies with a recorded `last_used` at least 30 seconds old
it returns one of maximal `success/(success+fail+1)` score, and it
returns a proxy whenever at least one such candidate exists. -/
theorem C7_amended (pool : List Proxy) (now : Nat) :
    (∀ p, getBestProxy pool now = some p →
      (p.isActive = true ∧ ∃ l, p.lastUsed = some l ∧ l + 30 ≤ now) ∧
      ∀ q ∈ pool, q.isActive = true → ∀ l, q.lastUsed = some l → l + 30 ≤ now →
        proxyScore q ≤ proxyScore p) ∧
    ((∃ q ∈ pool, proxyEligible now q = true) →
      ∃ p, getBestProxy pool now = some p) := by
  constructor
  · intro p hp
    have hmem := firstMax_mem hp
    have helig : proxyEligible now p = true := (List.mem_filter.mp hmem).2
    constructor
    · unfold proxyEligible at helig
      rcases hlu : p.lastUsed with _ | l
      · rw [hlu] at helig; simp at helig
      · rw [hlu] at helig
        simp only [Bool.and_eq_true, decide_eq_true_eq] at helig
        exact ⟨helig.1, l, rfl, helig.2⟩
    · intro q hq hact l hlu hle
      have hq' : proxyEligible now q = true := by
        simp [proxyEligible, hact, hlu, hle]
      exact firstMax_le hp q (List.mem_filter.mpr ⟨hq, hq'⟩)
  · rintro ⟨q, hq, helig⟩
    have hne : pool.filter (proxyEligible now) ≠ [] := by
      intro hnil
      have hmem := List.mem_filter.mpr ⟨hq, helig⟩
      rw [hnil] at hmem
      simp at hmem
    rcases Option.isSome_iff_exists.mp (firstMax_isSome hne) with ⟨p, hp⟩
    exact ⟨p, hp⟩

/-- C7, witness: the amended statement applied to a one-element pool
holding an eligible stale proxy. -/
theorem C7_amended_witness :
    ∃ p, getBestProxy [proxyStale] 100 = some p :=
  (C7_amended [proxyStale] 100).2 ⟨proxyStale, by decide, by decide⟩

/-- The state `cleanup` leaves behind, computed field by field: the
driver is always released, a set directory path survives only when it
does not exist on disk (the source clears the field inside the
existence check), and `tempDefined` is untouched. -/
def cleanupResult (w : CleanupWorld) (s : CState) : CState :=
  { driver := false,
    userDataDir :=
      match s.userDataDir with
      | some d => if w.dirExists d then none else some d
      | none => none,
    tempDefined := s.tempDefined,
    tempDir :=
      if s.tempDefined then
        match s.tempDir with
        | some d => if w.dirExists d then none else some d
        | none => s.tempDir
      else s.tempDir }

/-- `cleanup` never raises: every call returns `ok` with the state
described by `cleanupResult`. -/
lemma cleanup_eq_result (w : CleanupWorld) (s : CState) :
    cleanup w s = Except.ok (cleanupResult w s) := by
  obtain ⟨d, u, td, t⟩ := s
  cases d <;> rcases u with _ | du <;> cases td <;> rcases t with _ | dt
  all_goals try by_cases h1 : w.dirExists du = true
  all_goals try by_cases h2 : w.dirExists dt = true
  all_goals simp_all [cleanup, cleanupResult]
  all_goals rfl

/-- Cleaning an already-cleaned state changes nothing. -/
lemma cleanupResult_idem (w : CleanupWorld) (s : CState) :
    cleanupResult w (cleanupResult w s) = cleanupResult w s := by
  obtain ⟨d, u, td, t⟩ := s
  cases d <;> rcases u with _ | du <;> cases td <;> rcases t with _ | dt
  all_goals try by_cases h1 : w.dirExists du = true
  all_goals try by_cases h2 : w.dirExists dt = true
  all_goals simp_all [cleanupResult]

/-- C8: `cleanup` is total and idempotent: for every state of the
driver and the temporary directories, and whatever the quit and rmtree
calls do, `cleanup` returns without raising, and running it again on the
resulting state returns that same state unchanged. -/
theorem C8_cleanup_idempotent (w : CleanupWorld) (s : CState) :
    ∃ s', cleanup w s = Except.ok s' ∧ cleanup w s' = Except.ok s' :=
  ⟨cleanupResult w s, cleanup_eq_result w s, by
    rw [cleanup_eq_result w (cleanupResult w s), cleanupResult_idem w s]⟩

/-- C9: metric bounds. Starting from a table of in-bound metric rows,
`add_metric` keeps every stored row within the constructor bounds (cpu
in [0, 100] when present, memory and frame rate non-negative when
present); when the capture exists and the passed values violate a
bound, the call raises `ValueError` and stores no record. -/
theorem C9_metrics (captures : List Capture) (metrics : List Metric)
    (cid : String) (v : MetricVals) (now : Nat)
    (hinv : ∀ m ∈ metrics, metricOk m = true) :
    (∀ m ∈ (addMetric captures metrics cid v now).metrics, metricOk m = true) ∧
    ((findCapture captures cid).isSome = true →
      (cpuOk v.cpuUsage && memOk v.memoryUsage && frOk v.frameRate) = false →
      (∃ msg, (addMetric captures metrics cid v now).outcome
          = .error (.valueError msg)) ∧
      (addMetric captures metrics cid v now).metrics = metrics) := by
  unfold addMetric
  cases hf : findCapture captures cid with
  | none =>
    simp only [hf]
    exact ⟨hinv, by intro hsome; simp at hsome⟩
  | some c =>
    simp only [hf]
    unfold mkCaptureMetrics
    by_cases h1 : cpuOk v.cpuUsage
    · by_cases h2 : memOk v.memoryUsage
      · by_cases h3 : frOk v.frameRate
        · simp only [h1, h2, h3, not_true, if_false, Bool.and_self, reduceIte]
          constructor
          · intro m hm
            rcases List.mem_append.mp hm with hm' | hm'
            · exact hinv m hm'
            · rcases List.mem_singleton.mp hm' with rfl
              simp [metricOk, h1, h2, h3]
          · intro _ hbad
            exact absurd hbad (by simp)
        · simp only [h1, h2, h3, reduceIte]
          exact ⟨hinv, fun _ _ => ⟨⟨_, rfl⟩, rfl⟩⟩
      · simp only [h1, h2, reduceIte]
        exact ⟨hinv, fun _ _ => ⟨⟨_, rfl⟩, rfl⟩⟩
    · simp only [h1, reduceIte]
      exact ⟨hinv, fun _ _ => ⟨⟨_, rfl⟩, rfl⟩⟩

/-- C9, witness: the theorem applied to an out-of-bound cpu value on an
existing capture with an empty metric table. -/
theorem C9_metrics_witness :
    (∃ msg, (addMetric [sessionA] [] "a"
        { cpuUsage := some 150, memoryUsage := some 1, frameRate := some 1 } 3).outcome
        = .error (.valueError msg)) ∧
    (addMetric [sessionA] [] "a"
        { cpuUsage := some 150, memoryUsage := some 1, frameRate := some 1 } 3).metrics
      = [] :=
  (C9_metrics [sessionA] [] "a"
      { cpuUsage := some 150, memoryUsage := some 1, frameRate := some 1 } 3
      (by simp)).2 (by decide) (by decide)

/-- C6: the connectivity validator issues a HEAD probe with a 10s
timeout, retries exactly once with a 30s timeout exactly when the first
response is status 524 (the Cloudflare gateway-timeout the source
singles out), and on any other failing status — such as 523 — the
session ends `failed` with the `HTTP Error: 523` connectivity entry and
the `Connection validation failed` entry appended, and neither the
browser attempt loop nor the encoder subprocess is ever started. -/
theorem C6_probe (env : Env) (store : List Capture) (cid : String) :
    ((validateConnection env.probe cid env.now { store := store, events := [] }).timeoutsUsed
        = if env.probe.first = .ok 524 then [10, 30] else [10]) ∧
    (env.probe.first = .ok 523 →
      (startCapture env store cid).seleniumStarted = false ∧
      (startCapture env store cid).ffmpegStarted = false ∧
      (startCapture env store cid).st.events
        = [{ status := "failed", error := some "HTTP Error: 523" },
           { status := "failed", error := some "Connection validation failed" }] ∧
      ∀ c, findCapture store cid = some c →
        findCapture (startCapture env store cid).st.store cid
          = some { c with
                   status := "failed",
                   errors := c.errors
                     ++ [{ time := env.now, error := "HTTP Error: 523" },
                         { time := env.now, error := "Connection validation failed" }] }) := by
  constructor
  · rcases hf : env.probe.first with e | code1
    · simp [validateConnection, hf, pushStatus]
    · by_cases h524 : code1 = 524
      · subst h524
        rcases hs : env.probe.second with e2 | code2
        · simp [validateConnection, hf, hs, pushStatus]
        · by_cases h4 : code2 ≥ 400
          · simp [validateConnection, hf, hs, h4, pushStatus]
          · simp [validateConnection, hf, hs, h4, pushStatus]
      · by_cases h4 : code1 ≥ 400
        · simp [validateConnection, hf, h524, h4, pushStatus]
        · simp [validateConnection, hf, h524, h4, pushStatus]
  · intro h523
    have hval : validateConnection env.probe cid env.now { store := store, events := [] } =
        { st := (pushStatus { store := store, events := [] } cid "failed"
                   (some "HTTP Error: 523") none none none env.now).1,
          timeoutsUsed := [10], ok := false } := by
      simp [validateConnection, h523]
      rfl
    rw [startCapture, hval]
    simp only [pushStatus]
    refine ⟨rfl, rfl, rfl, ?_⟩
    intro c hc
    have hid : c.id = cid := findCapture_id hc
    have h1 := updateCaptureStatus_found store cid "failed"
        (some "HTTP Error: 523") none none env.now c (by decide) hc
    have hc1eq := appliedUpdate_err c "failed" "HTTP Error: 523" env.now (by decide)
    have hfind1 : findCapture
        (replaceCapture store (appliedUpdate c "failed" (some "HTTP Error: 523") none none env.now)) cid
        = some (appliedUpdate c "failed" (some "HTTP Error: 523") none none env.now) :=
      findCapture_replaceCapture store cid _
        (by rw [appliedUpdate_id]; exact hid) (by rw [hc]; rfl)
    have h2 := updateCaptureStatus_found _ cid "failed"
        (some "Connection validation failed") none none env.now _ (by decide) hfind1
    have h1s : (updateCaptureStatus store cid "failed" (some "HTTP Error: 523")
        none none none env.now).store
        = replaceCapture store (appliedUpdate c "failed" (some "HTTP Error: 523")
            none none env.now) := by rw [h1]
    have h2s : (updateCaptureStatus
        (replaceCapture store (appliedUpdate c "failed" (some "HTTP Error: 523") none none env.now))
        cid "failed" (some "Connection validation failed") none none none env.now).store
        = replaceCapture
            (replaceCapture store (appliedUpdate c "failed" (some "HTTP Error: 523") none none env.now))
            (appliedUpdate (appliedUpdate c "failed" (some "HTTP Error: 523") none none env.now)
              "failed" (some "Connection validation failed") none none env.now) := by rw [h2]
    have hfind2 := findCapture_replaceCapture
        (replaceCapture store (appliedUpdate c "failed" (some "HTTP Error: 523") none none env.now)) cid
        (appliedUpdate (appliedUpdate c "failed" (some "HTTP Error: 523") none none env.now)
          "failed" (some "Connection validation failed") none none env.now)
        (by rw [appliedUpdate_id, appliedUpdate_id]; exact hid)
        (by rw [hfind1]; rfl)
    rw [h1s, h2s]
    simp only [Bool.false_eq_true, not_false_eq_true, if_true]
    rw [hfind2]
    congr 1
    rw [appliedUpdate_err _ _ _ _ (by decide), hc1eq]
    simp [List.append_assoc]

/-- C6, witness: the theorem applied to the HTTP 523 scenario against a
store holding the freshly created session. -/
theorem C6_probe_witness :
    (startCapture envProbe523 [sessionA] "a").seleniumStarted = false ∧
    (startCapture envProbe523 [sessionA] "a").ffmpegStarted = false ∧
    findCapture (startCapture envProbe523 [sessionA] "a").st.store "a"
      = some { sessionA with
               status := "failed",
               errors := [{ time := 5, error := "HTTP Error: 523" },
                          { time := 5, error := "Connection validation failed" }] } := by
  have h := (C6_probe envProbe523 [sessionA] "a").2 (by decide)
  refine ⟨h.1, h.2.1, ?_⟩
  have h4 := h.2.2.2 sessionA (by decide)
  simpa [sessionA] using h4

end CaptureApp
